import Mathlib

/-!
HelloPiramid: a shallow embedding of `HelloPiramid/HelloPiramid.cpp`.

The program is one procedure that talks to three external collaborators
(the windowing library, the GL driver and the matrix library).  Every call
the source makes into them is recorded, in program order, as a `Call`; what
the collaborators answer is supplied by an `Env`; the matrix library is a
parameter (`Glm`).  The float type `F` is any field, so the same
definitions read in exact real arithmetic.
-/

namespace HelloPiramid

/-! ## Data model -/

/-- The GL object variables declared in `main`. -/
inductive Obj where
  | vertexShader
  | fragmentShader
  | edgeFragmentShader
  | shaderProgram
  | edgeShaderProgram
  | VAO
  | VBO
  | EBO
deriving DecidableEq

/-- First argument of `glfwWindowHint`. -/
inductive WindowHint where
  | GLFW_CONTEXT_VERSION_MAJOR
  | GLFW_CONTEXT_VERSION_MINOR
  | GLFW_OPENGL_PROFILE
deriving DecidableEq

/-- Second argument of `glfwWindowHint`. -/
inductive HintValue where
  | num (n : Nat)
  | GLFW_OPENGL_CORE_PROFILE
deriving DecidableEq

/-- Argument of `glCreateShader`. -/
inductive ShaderKind where
  | GL_VERTEX_SHADER
  | GL_FRAGMENT_SHADER
deriving DecidableEq

/-- Buffer binding points used by the program. -/
inductive BufferTarget where
  | GL_ARRAY_BUFFER
  | GL_ELEMENT_ARRAY_BUFFER
deriving DecidableEq

/-- Second argument of `glPolygonMode` (the face is always `GL_FRONT_AND_BACK`). -/
inductive PolygonMode where
  | GL_FILL
  | GL_LINE
deriving DecidableEq

/-- Primitive kind passed to `glDrawElements`. -/
inductive Primitive where
  | GL_TRIANGLES
deriving DecidableEq

/-- The array handed to `glBufferData`: `vertices` (floats) or `indices`
(unsigned ints). -/
inductive BufferContents (F : Type) where
  | floats (xs : List F)
  | uints (xs : List Nat)

/-- A three-component float vector (`glm::vec3`). -/
structure Vec3 (F : Type) where
  x : F
  y : F
  z : F

/-- One call into the windowing library, the GL loader, the GL driver or the
standard output stream, with the arguments the source passes and, for a call
whose result the program reads, the value it got back (`result`).  The
window handle and arguments that are the same constant at every call site
(`NULL` monitor and share, `GL_COMPILE_STATUS`, `GL_LINK_STATUS`,
`GL_STATIC_DRAW`, `GL_FLOAT`, `GL_FALSE`, `GL_FRONT_AND_BACK`,
`GL_UNSIGNED_INT`) are part of the constructor. -/
inductive Call (F M : Type) where
  | glfwInit
  | glfwWindowHint (hint : WindowHint) (value : HintValue)
  | glfwCreateWindow (width height : Nat) (title : String) (result : Bool)
  | cout (text : String)
  | endl
  | glfwTerminate
  | glfwMakeContextCurrent
  | glfwSetFramebufferSizeCallback
  | gladLoadGLLoader (result : Bool)
  | glEnableDepthTest
  | glViewport (x y : Int) (width height : Int)
  | glCreateShader (kind : ShaderKind) (result : Obj)
  | glShaderSource (shader : Obj) (count : Nat) (source : String)
  | glCompileShader (shader : Obj)
  | glGetShaderiv (shader : Obj) (result : Bool)
  | glGetShaderInfoLog (shader : Obj) (maxLength : Nat) (result : String)
  | glCreateProgram (result : Obj)
  | glAttachShader (program shader : Obj)
  | glLinkProgram (program : Obj)
  | glGetProgramiv (program : Obj) (result : Bool)
  | glGetProgramInfoLog (program : Obj) (maxLength : Nat) (result : String)
  | glDeleteShader (shader : Obj)
  | glGenVertexArrays (n : Nat) (result : Obj)
  | glGenBuffers (n : Nat) (result : Obj)
  | glBindVertexArray (array : Option Obj)
  | glBindBuffer (target : BufferTarget) (buffer : Option Obj)
  | glBufferData (target : BufferTarget) (size : Nat) (data : BufferContents F)
  | glVertexAttribPointer (index size stride offset : Nat)
  | glEnableVertexAttribArray (index : Nat)
  | glfwWindowShouldClose (result : Bool)
  | glfwGetKeyEscape (pressed : Bool)
  | glfwSetWindowShouldClose (value : Bool)
  | glClearColor (r g b a : F)
  | glClearColorAndDepth
  | glfwGetTime (result : F)
  | glUseProgram (program : Obj)
  | glGetUniformLocation (program : Obj) (name : String)
  | glUniformMatrix4fv (program : Obj) (name : String) (count : Nat) (value : M)
  | glPolygonMode (mode : PolygonMode)
  | glDrawElements (mode : Primitive) (count : Nat) (offset : Nat)
  | glfwSwapBuffers
  | glfwPollEvents
  | glDeleteVertexArrays (n : Nat) (array : Obj)
  | glDeleteBuffers (n : Nat) (buffer : Obj)
  | glDeleteProgram (program : Obj)

/-- The matrix library (`glm`), an external collaborator: the functions the
source calls, over floats `F` and 4x4 matrices `M`. -/
structure Glm (F M : Type) where
  mat4 : F → M
  rotate : M → F → Vec3 F → M
  lookAt : Vec3 F → Vec3 F → Vec3 F → M
  perspective : F → F → F → F → M
  radians : F → F
  sqrt : F → F

/-- What the outside world answers to the program.  `compileStatus`,
`linkStatus` and `infoLog` are the driver's answers for each shader or
program object; the remaining fields drive the render loop, indexed by the
frame number: whether Escape is down when `processInput` asks, the clock
reading, the framebuffer resizes delivered by `glfwPollEvents`, and what
`glfwPollEvents` does to the window's should-close flag. -/
structure Env (F : Type) where
  windowCreated : Bool
  gladLoaded : Bool
  compileStatus : Obj → Bool
  linkStatus : Obj → Bool
  infoLog : Obj → String
  initialShouldClose : Bool
  keyEscape : Nat → Bool
  time : Nat → F
  resizes : Nat → List (Int × Int)
  pollEvents : Nat → Bool → Bool

/-- The result of running `main`: the calls made so far and, when `main`
returned, its return value. -/
structure Run (F M : Type) where
  trace : List (Call F M)
  exit : Option Int

/-! ## Constants -/

def SCR_WIDTH : Nat := 800

def SCR_HEIGHT : Nat := 600

def vertexShaderSource : String :=
  "#version 330 core\nlayout (location = 0) in vec3 aPos;\nuniform mat4 model;\nuniform mat4 view;\nuniform mat4 projection;\nvoid main()\n\x7b\n   gl_Position = projection * view * model * vec4(aPos, 1.0);\n\x7d"

def fragmentShaderSource : String :=
  "#version 330 core\nout vec4 FragColor;\nvoid main()\n\x7b\n   FragColor = vec4(1.0f, 0.5f, 0.2f, 1.0f);\n\x7d\n"

def edgeFragmentShaderSource : String :=
  "#version 330 core\nout vec4 FragColor;\nvoid main()\n\x7b\n   FragColor = vec4(0.0f, 0.0f, 0.0f, 1.0f);\n\x7d\n"

/-- Size in bytes of a `float` and of an `unsigned int` on the target. -/
def sizeofScalar : Nat := 4

/-! ## Mesh data (lines 130-153) -/

/-- The `vertices` array of `main`, for given `scale` and `h`. -/
def vertices {F : Type} [Field F] (scale h : F) : List F :=
  [ scale * 0.5, scale * 0.5, 0.0,
    scale * 0.5, (-scale) * 0.5, 0.0,
    (-scale) * 0.5, (-scale) * 0.5, 0.0,
    (-scale) * 0.5, scale * 0.5, 0.0,
    scale * 0.0, scale * 0.0, scale * h ]

/-- The `indices` array of `main`. -/
def indices : List Nat :=
  [ 0, 1, 4,
    1, 2, 4,
    2, 3, 4,
    3, 0, 4,
    0, 2, 1,
    0, 3, 2 ]

/-! ## How the GL reads the mesh -/

/-- Vertex fetch for attribute 0 as set by
`glVertexAttribPointer(0, 3, GL_FLOAT, GL_FALSE, 3 * sizeof(float), 0)`:
vertex `i` is the three consecutive floats starting at float `3 * i`. -/
def vertexAt {F : Type} [Field F] (vs : List F) (i : Nat) : Vec3 F :=
  ⟨vs.getD (3 * i) 0, vs.getD (3 * i + 1) 0, vs.getD (3 * i + 2) 0⟩

/-- Primitive assembly for `GL_TRIANGLES`: consecutive index triples. -/
def triangles : List Nat → List (Nat × Nat × Nat)
  | a :: b :: c :: rest => (a, b, c) :: triangles rest
  | _ => []

/-- Squared Euclidean distance between two points. -/
def distSq {F : Type} [Field F] (p q : Vec3 F) : F :=
  (p.x - q.x) * (p.x - q.x) + (p.y - q.y) * (p.y - q.y) + (p.z - q.z) * (p.z - q.z)

/-- The three directed edges of a triangle, in winding order. -/
def triangleEdges (t : Nat × Nat × Nat) : List (Nat × Nat) :=
  [(t.1, t.2.1), (t.2.1, t.2.2), (t.2.2, t.1)]

/-- All directed edges of a triangle list. -/
def directedEdges (ts : List (Nat × Nat × Nat)) : List (Nat × Nat) :=
  ts.flatMap triangleEdges

/-- An edge with its direction forgotten: smaller endpoint first. -/
def undirected (e : Nat × Nat) : Nat × Nat :=
  (min e.1 e.2, max e.1 e.2)

/-- The distinct undirected edges of a triangle list. -/
def undirectedEdges (ts : List (Nat × Nat × Nat)) : List (Nat × Nat) :=
  ((directedEdges ts).map undirected).dedup

/-- Whether triangle `t` has the undirected edge `e` on its boundary. -/
def hasEdge (t : Nat × Nat × Nat) (e : Nat × Nat) : Bool :=
  ((triangleEdges t).map undirected).contains e

/-- Two base corners are joined by a side of the base square (not by a
diagonal) when they agree in exactly one of their x and y coordinates. -/
def baseAdjacent {F : Type} [Field F] (vs : List F) (a b : Nat) : Prop :=
  ((vertexAt vs a).x = (vertexAt vs b).x ∧ (vertexAt vs a).y ≠ (vertexAt vs b).y) ∨
  ((vertexAt vs a).x ≠ (vertexAt vs b).x ∧ (vertexAt vs a).y = (vertexAt vs b).y)

/-! ## The program -/

section Program

variable {F M : Type} [Field F]

/-- Source `processInput` (lines 8-11): asks for the Escape key and, when it
is pressed, sets the should-close flag.  Takes the key state the windowing
library reports and the flag before the call; returns the calls made and
the flag after the call. -/
def processInput (pressed : Bool) (shouldClose : Bool) : List (Call F M) × Bool :=
  if pressed then
    ([Call.glfwGetKeyEscape true, Call.glfwSetWindowShouldClose true], true)
  else
    ([Call.glfwGetKeyEscape false], shouldClose)

/-- Source `framebuffer_size_callback` (lines 13-15). -/
def framebuffer_size_callback (width height : Int) : List (Call F M) :=
  [Call.glViewport 0 0 width height]

/-- Lines 46-53: library initialisation, window hints and window creation. -/
def createWindow (env : Env F) : List (Call F M) :=
  [ Call.glfwInit,
    Call.glfwWindowHint WindowHint.GLFW_CONTEXT_VERSION_MAJOR (HintValue.num 3),
    Call.glfwWindowHint WindowHint.GLFW_CONTEXT_VERSION_MINOR (HintValue.num 3),
    Call.glfwWindowHint WindowHint.GLFW_OPENGL_PROFILE HintValue.GLFW_OPENGL_CORE_PROFILE,
    Call.glfwCreateWindow SCR_WIDTH SCR_HEIGHT "Hello Pyramid" env.windowCreated ]

/-- Lines 54-58: the branch taken when `glfwCreateWindow` returned `NULL`. -/
def windowFailure : List (Call F M) :=
  [ Call.cout "Failed to create GLFW window", Call.endl, Call.glfwTerminate ]

/-- Lines 59-63: make the context current, register the resize callback and
run the GL loader. -/
def loadGL (env : Env F) : List (Call F M) :=
  [ Call.glfwMakeContextCurrent,
    Call.glfwSetFramebufferSizeCallback,
    Call.gladLoadGLLoader env.gladLoaded ]

/-- Lines 64-65: the branch taken when the GL loader failed. -/
def loaderFailure : List (Call F M) :=
  [ Call.cout "Failed to initialize GLAD", Call.endl ]

/-- One shader compilation with its status check, as written three times in
lines 74-101: create, set source, compile, read `GL_COMPILE_STATUS`, and on
failure fetch the info log and print `header` followed by the log. -/
def compileShader (env : Env F) (kind : ShaderKind) (shader : Obj) (source header : String) :
    List (Call F M) :=
  [ Call.glCreateShader kind shader,
    Call.glShaderSource shader 1 source,
    Call.glCompileShader shader,
    Call.glGetShaderiv shader (env.compileStatus shader) ] ++
  (if env.compileStatus shader then []
   else
     [ Call.glGetShaderInfoLog shader 512 (env.infoLog shader),
       Call.cout header, Call.cout (env.infoLog shader), Call.endl ])

/-- One program link with its status check, as written twice in lines
104-123. -/
def linkProgram (env : Env F) (program fragment : Obj) (header : String) : List (Call F M) :=
  [ Call.glCreateProgram program,
    Call.glAttachShader program Obj.vertexShader,
    Call.glAttachShader program fragment,
    Call.glLinkProgram program,
    Call.glGetProgramiv program (env.linkStatus program) ] ++
  (if env.linkStatus program then []
   else
     [ Call.glGetProgramInfoLog program 512 (env.infoLog program),
       Call.cout header, Call.cout (env.infoLog program), Call.endl ])

/-- Lines 71-128: the three compilations, the two links and the deletion of
the shader objects. -/
def shaderSetup (env : Env F) : List (Call F M) :=
  compileShader env ShaderKind.GL_VERTEX_SHADER Obj.vertexShader vertexShaderSource
    "ERROR::SHADER::VERTEX::COMPILATION_FAILED\n" ++
  compileShader env ShaderKind.GL_FRAGMENT_SHADER Obj.fragmentShader fragmentShaderSource
    "ERROR::SHADER::FRAGMENT::COMPILATION_FAILED\n" ++
  compileShader env ShaderKind.GL_FRAGMENT_SHADER Obj.edgeFragmentShader edgeFragmentShaderSource
    "ERROR::SHADER::EDGE_FRAGMENT::COMPILATION_FAILED\n" ++
  linkProgram env Obj.shaderProgram Obj.fragmentShader
    "ERROR::SHADER::PROGRAM::LINKING_FAILED\n" ++
  linkProgram env Obj.edgeShaderProgram Obj.edgeFragmentShader
    "ERROR::SHADER::EDGE_PROGRAM::LINKING_FAILED\n" ++
  [ Call.glDeleteShader Obj.vertexShader,
    Call.glDeleteShader Obj.fragmentShader,
    Call.glDeleteShader Obj.edgeFragmentShader ]

/-- Lines 155-173: generate the three objects, upload `vertices` and
`indices`, describe attribute 0 and unbind. -/
def bufferSetup (vs : List F) (is : List Nat) : List (Call F M) :=
  [ Call.glGenVertexArrays 1 Obj.VAO,
    Call.glGenBuffers 1 Obj.VBO,
    Call.glGenBuffers 1 Obj.EBO,
    Call.glBindVertexArray (some Obj.VAO),
    Call.glBindBuffer BufferTarget.GL_ARRAY_BUFFER (some Obj.VBO),
    Call.glBufferData BufferTarget.GL_ARRAY_BUFFER (sizeofScalar * vs.length)
      (BufferContents.floats vs),
    Call.glBindBuffer BufferTarget.GL_ELEMENT_ARRAY_BUFFER (some Obj.EBO),
    Call.glBufferData BufferTarget.GL_ELEMENT_ARRAY_BUFFER (sizeofScalar * is.length)
      (BufferContents.uints is),
    Call.glVertexAttribPointer 0 3 (3 * sizeofScalar) 0,
    Call.glEnableVertexAttribArray 0,
    Call.glBindBuffer BufferTarget.GL_ARRAY_BUFFER none,
    Call.glBindVertexArray none ]

/-- The `model` matrix of frame `i` (lines 184-185). -/
def modelMatrix (glm : Glm F M) (env : Env F) (i : Nat) : M :=
  glm.rotate (glm.mat4 1.0) (env.time i * glm.radians 50.0) ⟨0.0, 0.0, 1.0⟩

/-- The `view` matrix (lines 187-191). -/
def viewMatrix (glm : Glm F M) : M :=
  glm.lookAt ⟨2.0, 1.0, 2.0⟩ ⟨0.0, 0.0, 0.5⟩ ⟨0.0, 0.0, 1.0⟩

/-- The `projection` matrix (lines 193-197). -/
def projectionMatrix (glm : Glm F M) : M :=
  glm.perspective (glm.radians 45.0) ((SCR_WIDTH : F) / (SCR_HEIGHT : F)) 0.1 100.0

/-- Lines 200-203 and 210-213: select `program` and set its three matrix
uniforms. -/
def useProgram (program : Obj) (model view projection : M) : List (Call F M) :=
  [ Call.glUseProgram program,
    Call.glGetUniformLocation program "model",
    Call.glUniformMatrix4fv program "model" 1 model,
    Call.glGetUniformLocation program "view",
    Call.glUniformMatrix4fv program "view" 1 view,
    Call.glGetUniformLocation program "projection",
    Call.glUniformMatrix4fv program "projection" 1 projection ]

/-- Lines 177-222: the body of the render loop for frame `i`, given the
should-close flag at the loop check.  Returns the calls made and the flag
left for the next loop check. -/
def frame (glm : Glm F M) (env : Env F) (i : Nat) (shouldClose : Bool) :
    List (Call F M) × Bool :=
  let input : List (Call F M) × Bool := processInput (env.keyEscape i) shouldClose
  let model := modelMatrix glm env i
  let view := viewMatrix glm
  let projection := projectionMatrix glm
  ( input.1 ++
    [ Call.glClearColor 0.2 0.3 0.3 1.0,
      Call.glClearColorAndDepth,
      Call.glfwGetTime (env.time i) ] ++
    useProgram Obj.shaderProgram model view projection ++
    [ Call.glBindVertexArray (some Obj.VAO),
      Call.glPolygonMode PolygonMode.GL_FILL,
      Call.glDrawElements Primitive.GL_TRIANGLES 18 0 ] ++
    useProgram Obj.edgeShaderProgram model view projection ++
    [ Call.glPolygonMode PolygonMode.GL_LINE,
      Call.glDrawElements Primitive.GL_TRIANGLES 18 0,
      Call.glPolygonMode PolygonMode.GL_FILL,
      Call.glfwSwapBuffers,
      Call.glfwPollEvents ] ++
    (env.resizes i).flatMap (fun wh => framebuffer_size_callback wh.1 wh.2),
    env.pollEvents i input.2 )

/-- Lines 176-223: the render loop, from frame `i` on, with the given
should-close flag.  `fuel` bounds the number of loop checks; the second
component tells whether the loop ended within that bound. -/
def renderLoop (glm : Glm F M) (env : Env F) : Nat → Nat → Bool → List (Call F M) × Bool
  | 0, _, _ => ([], false)
  | fuel + 1, i, shouldClose =>
    if shouldClose then
      ([Call.glfwWindowShouldClose true], true)
    else
      let body := frame glm env i false
      let rest := renderLoop glm env fuel (i + 1) body.2
      (Call.glfwWindowShouldClose false :: body.1 ++ rest.1, rest.2)

/-- Lines 226-232: deletion of the GL objects and library shutdown. -/
def cleanup : List (Call F M) :=
  [ Call.glDeleteVertexArrays 1 Obj.VAO,
    Call.glDeleteBuffers 1 Obj.VBO,
    Call.glDeleteBuffers 1 Obj.EBO,
    Call.glDeleteProgram Obj.shaderProgram,
    Call.glDeleteProgram Obj.edgeShaderProgram,
    Call.glfwTerminate ]

/-- Lines 68-173: everything between the loader check and the render loop. -/
def setup (glm : Glm F M) (env : Env F) : List (Call F M) :=
  [Call.glEnableDepthTest] ++ shaderSetup env ++
  bufferSetup (vertices 0.8 (glm.sqrt 0.5)) indices

/-- Source `main` (lines 45-234).  `fuel` bounds the number of render-loop
checks; when it runs out the run has no exit status yet. -/
def main (glm : Glm F M) (env : Env F) (fuel : Nat) : Run F M :=
  if env.windowCreated = false then
    ⟨createWindow env ++ windowFailure, some (-1)⟩
  else if env.gladLoaded = false then
    ⟨createWindow env ++ loadGL env ++ loaderFailure, some (-1)⟩
  else
    let loop := renderLoop glm env fuel 0 env.initialShouldClose
    if loop.2 then
      ⟨createWindow env ++ loadGL env ++ setup glm env ++ loop.1 ++ cleanup, some 0⟩
    else
      ⟨createWindow env ++ loadGL env ++ setup glm env ++ loop.1, none⟩

end Program

/-! ## Observations on a trace -/

section Observers

variable {F M : Type}

/-- What a call writes to standard output, if anything (`endl` writes a
newline). -/
def Call.output : Call F M → Option String
  | Call.cout text => some text
  | Call.endl => some "\n"
  | _ => none

/-- The pieces written to standard output by a trace, in order. -/
def stdout (t : List (Call F M)) : List String :=
  t.filterMap Call.output

/-- Whether the call creates a shader, a program, a buffer or a vertex array. -/
def Call.creates : Call F M → Bool
  | Call.glCreateShader _ _ => true
  | Call.glCreateProgram _ => true
  | Call.glGenVertexArrays _ _ => true
  | Call.glGenBuffers _ _ => true
  | _ => false

/-- Whether the call generates the vertex array or buffer object `o`. -/
def Call.generates (o : Obj) : Call F M → Bool
  | Call.glGenVertexArrays _ r => decide (r = o)
  | Call.glGenBuffers _ r => decide (r = o)
  | _ => false

/-- Whether the call deletes the vertex array or buffer object `o`. -/
def Call.deletes (o : Obj) : Call F M → Bool
  | Call.glDeleteVertexArrays _ r => decide (r = o)
  | Call.glDeleteBuffers _ r => decide (r = o)
  | _ => false

/-- Whether the call is a `glBufferData` upload. -/
def Call.isUpload : Call F M → Bool
  | Call.glBufferData _ _ _ => true
  | _ => false

/-- Whether the call describes a vertex attribute of the bound vertex array. -/
def Call.isAttribSetup : Call F M → Bool
  | Call.glVertexAttribPointer _ _ _ _ => true
  | _ => false

/-- Whether the call is a draw call. -/
def Call.isDraw : Call F M → Bool
  | Call.glDrawElements _ _ _ => true
  | _ => false

/-- Whether the call is the render loop's check of the should-close flag. -/
def Call.isLoopCheck : Call F M → Bool
  | Call.glfwWindowShouldClose _ => true
  | _ => false

/-- Whether the call shuts the windowing library down. -/
def Call.isTerminate : Call F M → Bool
  | Call.glfwTerminate => true
  | _ => false

/-- Whether the call generates, fills, configures or deletes a buffer or
vertex array, or shuts the windowing library down. -/
def Call.isBufferLifecycle : Call F M → Bool
  | Call.glGenVertexArrays _ _ => true
  | Call.glGenBuffers _ _ => true
  | Call.glBufferData _ _ _ => true
  | Call.glVertexAttribPointer _ _ _ _ => true
  | Call.glDeleteVertexArrays _ _ => true
  | Call.glDeleteBuffers _ _ => true
  | Call.glfwTerminate => true
  | _ => false

/-- The buffer bindings of the GL context that matter for uploads. -/
structure Bindings where
  vertexArray : Option Obj
  arrayBuffer : Option Obj
  elementArrayBuffer : Option Obj

/-- Effect of one call on the buffer bindings. -/
def Bindings.step (b : Bindings) : Call F M → Bindings
  | Call.glBindVertexArray a => { b with vertexArray := a }
  | Call.glBindBuffer BufferTarget.GL_ARRAY_BUFFER o => { b with arrayBuffer := o }
  | Call.glBindBuffer BufferTarget.GL_ELEMENT_ARRAY_BUFFER o => { b with elementArrayBuffer := o }
  | _ => b

/-- The buffer object a `glBufferData` call fills (the one bound to its
target) together with the data, or the vertex array a
`glVertexAttribPointer` call configures. -/
def Bindings.uploadOf (b : Bindings) : Call F M → Option (Option Obj × BufferContents F)
  | Call.glBufferData BufferTarget.GL_ARRAY_BUFFER _ d => some (b.arrayBuffer, d)
  | Call.glBufferData BufferTarget.GL_ELEMENT_ARRAY_BUFFER _ d => some (b.elementArrayBuffer, d)
  | _ => none

/-- The uploads a trace performs, each with the buffer object that receives
it, starting from bindings `b`. -/
def uploads : Bindings → List (Call F M) → List (Option Obj × BufferContents F)
  | _, [] => []
  | b, c :: rest => (b.uploadOf c).toList ++ uploads (b.step c) rest

/-- The part of the GL state a draw call depends on: the program in use, the
polygon mode and the matrix uniforms of each program. -/
structure GLState (M : Type) where
  program : Option Obj
  polygonMode : PolygonMode
  uniform : Obj → String → Option M

/-- Effect of one call on the draw state.  `glUniformMatrix4fv` sets a
uniform of the program in use, and only when the location belongs to it. -/
def GLState.step (s : GLState M) : Call F M → GLState M
  | Call.glUseProgram p => { s with program := some p }
  | Call.glPolygonMode m => { s with polygonMode := m }
  | Call.glUniformMatrix4fv p name _ v =>
    if s.program = some p then
      { s with uniform := fun q n => if q = p ∧ n = name then some v else s.uniform q n }
    else s
  | _ => s

/-- One executed draw call: its arguments and the state it ran in. -/
structure Draw (M : Type) where
  mode : Primitive
  count : Nat
  offset : Nat
  program : Option Obj
  polygonMode : PolygonMode
  model : Option M
  view : Option M
  projection : Option M

/-- The draw a call performs in state `s`, if it is a draw call. -/
def GLState.drawOf (s : GLState M) : Call F M → Option (Draw M)
  | Call.glDrawElements mode count offset =>
    some
      { mode := mode, count := count, offset := offset,
        program := s.program, polygonMode := s.polygonMode,
        model := s.program.bind (fun p => s.uniform p "model"),
        view := s.program.bind (fun p => s.uniform p "view"),
        projection := s.program.bind (fun p => s.uniform p "projection") }
  | _ => none

/-- The draws a trace performs, starting from state `s`. -/
def draws : GLState M → List (Call F M) → List (Draw M)
  | _, [] => []
  | s, c :: rest => (s.drawOf c).toList ++ draws (s.step c) rest

/-- The status a call reads back from the driver, with the object it asks
about: the `GL_COMPILE_STATUS` of a shader or the `GL_LINK_STATUS` of a
program. -/
def Call.statusCheck : Call F M → Option (Obj × Bool)
  | Call.glGetShaderiv shader result => some (shader, result)
  | Call.glGetProgramiv program result => some (program, result)
  | _ => none

/-- The status checks a trace performs, in order. -/
def statusChecks (t : List (Call F M)) : List (Obj × Bool) :=
  t.filterMap Call.statusCheck

/-- Layout of one vertex attribute as set by `glVertexAttribPointer`: the
number of float components, the byte stride, the byte offset, and the buffer
that was bound to `GL_ARRAY_BUFFER` when the layout was set. -/
structure AttribLayout where
  size : Nat
  stride : Nat
  offset : Nat
  buffer : Option Obj

/-- The data store of a buffer object: the byte count passed to
`glBufferData` and the array the bytes were copied from. -/
structure BufferStore (F : Type) where
  bytes : Nat
  data : BufferContents F

/-- The part of the GL context that vertex fetch depends on: the bound
vertex array and array buffer, and, per vertex array, the element buffer
binding, the attribute layouts and which attributes are enabled; and the
data store of each buffer object. -/
structure GLMem (F : Type) where
  vertexArray : Option Obj
  arrayBuffer : Option Obj
  elementBuffer : Obj → Option Obj
  attrib : Obj → Nat → Option AttribLayout
  enabled : Obj → Nat → Bool
  store : Obj → Option (BufferStore F)

/-- A fresh context: nothing bound, nothing configured, no data. -/
def GLMem.init : GLMem F :=
  { vertexArray := none, arrayBuffer := none, elementBuffer := fun _ => none,
    attrib := fun _ _ => none, enabled := fun _ _ => false, store := fun _ => none }

/-- Effect of one call on the fetch state.  Binding `GL_ELEMENT_ARRAY_BUFFER`
and the attribute calls act on the bound vertex array; `glBufferData` fills
the buffer bound to its target with `size` bytes of the array; the layout
records the buffer bound to `GL_ARRAY_BUFFER`. -/
def GLMem.step (m : GLMem F) : Call F M → GLMem F
  | Call.glBindVertexArray a => { m with vertexArray := a }
  | Call.glBindBuffer BufferTarget.GL_ARRAY_BUFFER o => { m with arrayBuffer := o }
  | Call.glBindBuffer BufferTarget.GL_ELEMENT_ARRAY_BUFFER o =>
    match m.vertexArray with
    | some v => { m with elementBuffer := fun w => if w = v then o else m.elementBuffer w }
    | none => m
  | Call.glBufferData BufferTarget.GL_ARRAY_BUFFER size d =>
    match m.arrayBuffer with
    | some b => { m with store := fun o => if o = b then some ⟨size, d⟩ else m.store o }
    | none => m
  | Call.glBufferData BufferTarget.GL_ELEMENT_ARRAY_BUFFER size d =>
    match m.vertexArray.bind m.elementBuffer with
    | some b => { m with store := fun o => if o = b then some ⟨size, d⟩ else m.store o }
    | none => m
  | Call.glVertexAttribPointer index size stride offset =>
    match m.vertexArray with
    | some v =>
      { m with attrib := fun w i =>
          if w = v ∧ i = index then some ⟨size, stride, offset, m.arrayBuffer⟩
          else m.attrib w i }
    | none => m
  | Call.glEnableVertexAttribArray index =>
    match m.vertexArray with
    | some v =>
      { m with enabled := fun w i => if w = v ∧ i = index then true else m.enabled w i }
    | none => m
  | Call.glDeleteBuffers _ b =>
    { m with store := fun o => if o = b then none else m.store o }
  | Call.glDeleteVertexArrays _ v =>
    { m with
      vertexArray := if m.vertexArray = some v then none else m.vertexArray
      elementBuffer := fun w => if w = v then none else m.elementBuffer w
      attrib := fun w i => if w = v then none else m.attrib w i
      enabled := fun w i => if w = v then false else m.enabled w i }
  | _ => m

/-- Reads every item of a list; fails as soon as one read fails. -/
def readAll {α β : Type} (f : α → Option β) : List α → Option (List β)
  | [] => some []
  | a :: rest =>
    match f a, readAll f rest with
    | some b, some bs => some (b :: bs)
    | _, _ => none

/-- Reads the unsigned int at a byte offset of a data store: the offset must
be aligned, the four bytes must lie inside the store, and the store must
have been filled from an unsigned-int array that long. -/
def BufferStore.readUInt (st : BufferStore F) (byteOffset : Nat) : Option Nat :=
  if byteOffset % sizeofScalar = 0 ∧ byteOffset + sizeofScalar ≤ st.bytes then
    match st.data with
    | BufferContents.uints xs => xs[byteOffset / sizeofScalar]?
    | BufferContents.floats _ => none
  else none

/-- Reads the float at a byte offset of a data store, under the same
conditions. -/
def BufferStore.readFloat (st : BufferStore F) (byteOffset : Nat) : Option F :=
  if byteOffset % sizeofScalar = 0 ∧ byteOffset + sizeofScalar ≤ st.bytes then
    match st.data with
    | BufferContents.floats xs => xs[byteOffset / sizeofScalar]?
    | BufferContents.uints _ => none
  else none

/-- The indices `glDrawElements(_, count, GL_UNSIGNED_INT, offset)` reads:
`count` unsigned ints from byte `offset` of the element buffer of the bound
vertex array.  `none` when no vertex array or element buffer is bound or a
read falls outside the data store. -/
def GLMem.fetchIndices (m : GLMem F) (count offset : Nat) : Option (List Nat) :=
  match m.vertexArray with
  | none => none
  | some v =>
    match m.elementBuffer v with
    | none => none
    | some e =>
      match m.store e with
      | none => none
      | some st =>
        readAll (fun k => st.readUInt (offset + sizeofScalar * k)) (List.range count)

/-- The components fetched for attribute `index` of vertex number `x`:
`size` floats starting at byte `offset + stride * x` of the attribute's
buffer.  `none` when the attribute is not enabled or not laid out on a
buffer, or a read falls outside the data store. -/
def GLMem.fetchVertex (m : GLMem F) (index x : Nat) : Option (List F) :=
  match m.vertexArray with
  | none => none
  | some v =>
    if m.enabled v index then
      match m.attrib v index with
      | none => none
      | some a =>
        match a.buffer with
        | none => none
        | some b =>
          match m.store b with
          | none => none
          | some st =>
            readAll (fun j => st.readFloat (a.offset + a.stride * x + sizeofScalar * j))
              (List.range a.size)
    else none

/-- What a draw call reads for attribute 0 (`aPos`, the vertex shader's only
input): for each index read, the components of that vertex.  The outer
option is `none` for a call that is not a draw; the inner one is `none` when
some read of the draw falls outside a data store. -/
def GLMem.fetchDraw (m : GLMem F) : Call F M → Option (Option (List (List F)))
  | Call.glDrawElements _ count offset =>
    some
      (match m.fetchIndices count offset with
       | none => none
       | some xs => readAll (m.fetchVertex 0) xs)
  | _ => none

/-- What the draws of a trace read, one entry per draw call, starting from
fetch state `m`. -/
def fetches : GLMem F → List (Call F M) → List (Option (List (List F)))
  | _, [] => []
  | m, c :: rest => (m.fetchDraw c).toList ++ fetches (m.step c) rest

/-- The mesh is in GL memory: the element buffer of `VAO` is `EBO`, filled
with all of `is`; attribute 0 of `VAO` is enabled and laid out as three
floats per vertex, tightly packed from byte 0 of `VBO`; and `VBO` is filled
with all of `vs`. -/
def MeshLoaded (vs : List F) (is : List Nat) (m : GLMem F) : Prop :=
  m.elementBuffer Obj.VAO = some Obj.EBO ∧
  m.store Obj.EBO = some ⟨sizeofScalar * is.length, BufferContents.uints is⟩ ∧
  m.attrib Obj.VAO 0 = some ⟨3, 3 * sizeofScalar, 0, some Obj.VBO⟩ ∧
  m.enabled Obj.VAO 0 = true ∧
  m.store Obj.VBO = some ⟨sizeofScalar * vs.length, BufferContents.floats vs⟩

end Observers

section Runs

variable {F M : Type} [Field F]

/-- The should-close flag at the `n`-th loop check (counting from 0), as
long as every earlier check found it false. -/
def shouldCloseAt (env : Env F) : Nat → Bool
  | 0 => env.initialShouldClose
  | n + 1 => env.pollEvents n (if env.keyEscape n then true else shouldCloseAt env n)

/-- The calls of `d` consecutive loop iterations starting at frame `i`: each
is a loop check that finds the flag false followed by the loop body. -/
def frames (glm : Glm F M) (env : Env F) : Nat → Nat → List (Call F M)
  | _, 0 => []
  | i, d + 1 =>
    Call.glfwWindowShouldClose false :: (frame glm env i false).1 ++ frames glm env (i + 1) d

/-- The two draws the specification expects of frame `i`: filled faces with
the face program, then wireframe with the edge program, both with the
frame's matrices. -/
def expectedDraws (glm : Glm F M) (env : Env F) (i : Nat) : List (Draw M) :=
  [ { mode := Primitive.GL_TRIANGLES, count := 18, offset := 0,
      program := some Obj.shaderProgram, polygonMode := PolygonMode.GL_FILL,
      model := some (modelMatrix glm env i), view := some (viewMatrix glm),
      projection := some (projectionMatrix glm) },
    { mode := Primitive.GL_TRIANGLES, count := 18, offset := 0,
      program := some Obj.edgeShaderProgram, polygonMode := PolygonMode.GL_LINE,
      model := some (modelMatrix glm env i), view := some (viewMatrix glm),
      projection := some (projectionMatrix glm) } ]

/-- What a draw of the whole mesh should read: for each entry of `is`, in
order, the three coordinates of the vertex of `vs` it names. -/
def expectedFetch (vs : List F) (is : List Nat) : List (List F) :=
  is.map (fun x => [(vertexAt vs x).x, (vertexAt vs x).y, (vertexAt vs x).z])

/-- The report of one status check as the specification words it: nothing
when the check succeeded, else the header, the info log and a newline. -/
def expectedReport (ok : Bool) (header log : String) : List String :=
  if ok then [] else [header, log, "\n"]

end Runs

/-! ## Concrete inputs -/

/-- A stand-in for the matrix library over the rationals, for running
`main` on concrete inputs: matrices are not computed, `radians` uses
355/113 for pi and `sqrt` is one Newton step from 1. -/
def sampleGlm : Glm ℚ Unit where
  mat4 := fun _ => ()
  rotate := fun _ _ _ => ()
  lookAt := fun _ _ _ => ()
  perspective := fun _ _ _ _ => ()
  radians := fun d => d * (355 / 113) / 180
  sqrt := fun x => (x + 1) / 2

/-- A run in which everything succeeds and Escape is pressed in frame 1. -/
def sampleEnv : Env ℚ where
  windowCreated := true
  gladLoaded := true
  compileStatus := fun _ => true
  linkStatus := fun _ => true
  infoLog := fun _ => ""
  initialShouldClose := false
  keyEscape := fun i => decide (i = 1)
  time := fun i => i / 60
  resizes := fun i => if i = 0 then [(1024, 768)] else []
  pollEvents := fun _ flag => flag

/-- As `sampleEnv`, but window creation fails. -/
def noWindowEnv : Env ℚ :=
  { sampleEnv with windowCreated := false }

/-- As `sampleEnv`, but the GL loader fails. -/
def noLoaderEnv : Env ℚ :=
  { sampleEnv with gladLoaded := false }

/-- As `sampleEnv`, but the face fragment shader fails to compile and the
face program fails to link. -/
def brokenShaderEnv : Env ℚ :=
  { sampleEnv with
    compileStatus := fun o => decide (o ≠ Obj.fragmentShader)
    linkStatus := fun o => decide (o ≠ Obj.shaderProgram)
    infoLog := fun o => if o = Obj.fragmentShader then "0:5: syntax" else "link: missing stage" }

/-! ## The mesh -/

theorem vertexAt_vertices {F : Type} [Field F] (scale h : F) :
    vertexAt (vertices scale h) 0 = ⟨scale * 0.5, scale * 0.5, 0.0⟩ ∧
    vertexAt (vertices scale h) 1 = ⟨scale * 0.5, (-scale) * 0.5, 0.0⟩ ∧
    vertexAt (vertices scale h) 2 = ⟨(-scale) * 0.5, (-scale) * 0.5, 0.0⟩ ∧
    vertexAt (vertices scale h) 3 = ⟨(-scale) * 0.5, scale * 0.5, 0.0⟩ ∧
    vertexAt (vertices scale h) 4 = ⟨scale * 0.0, scale * 0.0, scale * h⟩ := by
  simp [vertexAt, vertices]

theorem triangles_indices :
    triangles indices = [(0, 1, 4), (1, 2, 4), (2, 3, 4), (3, 0, 4), (0, 2, 1), (0, 3, 2)] := by
  decide

theorem baseAdjacent_sides {F : Type} [Field F] [CharZero F] (h : F) :
    baseAdjacent (vertices (0.8 : F) h) 0 1 ∧ baseAdjacent (vertices (0.8 : F) h) 1 2 ∧
    baseAdjacent (vertices (0.8 : F) h) 2 3 ∧ baseAdjacent (vertices (0.8 : F) h) 3 0 := by
  refine ⟨?_, ?_, ?_, ?_⟩
  · left; simp only [vertexAt, vertices]; norm_num
  · right; simp only [vertexAt, vertices]; norm_num
  · left; simp only [vertexAt, vertices]; norm_num
  · right; simp only [vertexAt, vertices]; norm_num

/-- C3: the vertex array holds 15 floats, five vertices of three components,
the four base corners with z = 0 and the apex with x = y = 0; the index
array holds 18 entries forming 6 triangles; each of the first four joins the
apex 4 to two base corners that share a side of the square; the last two use
base corners only and between them touch all four. -/
theorem mesh_shape {F : Type} [Field F] [CharZero F] (h : F) :
    (vertices (0.8 : F) h).length = 15 ∧
    (vertices (0.8 : F) h).length = 5 * 3 ∧
    (∀ i, i < 4 → (vertexAt (vertices (0.8 : F) h) i).z = 0) ∧
    (vertexAt (vertices (0.8 : F) h) 4).x = 0 ∧
    (vertexAt (vertices (0.8 : F) h) 4).y = 0 ∧
    indices.length = 18 ∧
    (triangles indices).length = 6 ∧
    (∀ t ∈ (triangles indices).take 4,
      t.2.2 = 4 ∧ t.1 < 4 ∧ t.2.1 < 4 ∧ baseAdjacent (vertices (0.8 : F) h) t.1 t.2.1) ∧
    (∀ t ∈ (triangles indices).drop 4, t.1 < 4 ∧ t.2.1 < 4 ∧ t.2.2 < 4) ∧
    (∀ v, v < 4 → ∃ t ∈ (triangles indices).drop 4, v = t.1 ∨ v = t.2.1 ∨ v = t.2.2) := by
  obtain ⟨a01, a12, a23, a30⟩ := baseAdjacent_sides h
  refine ⟨rfl, rfl, ?_, ?_, ?_, rfl, by decide, ?_, ?_, ?_⟩
  · intro i hi
    interval_cases i <;> simp only [vertexAt, vertices] <;> norm_num
  · simp only [vertexAt, vertices]; norm_num
  · simp only [vertexAt, vertices]; norm_num
  · intro t ht
    rw [triangles_indices] at ht
    simp only [List.take, List.mem_cons, List.mem_nil_iff, or_false] at ht
    rcases ht with rfl | rfl | rfl | rfl
    · exact ⟨rfl, by decide, by decide, a01⟩
    · exact ⟨rfl, by decide, by decide, a12⟩
    · exact ⟨rfl, by decide, by decide, a23⟩
    · exact ⟨rfl, by decide, by decide, a30⟩
  · decide
  · decide

theorem sqrt_half_mul_self : Real.sqrt 0.5 * Real.sqrt 0.5 = 1 / 2 := by
  rw [Real.mul_self_sqrt (by norm_num)]
  norm_num

theorem distSq_edges (r : ℝ) (hr : r * r = 1 / 2) :
    ∀ e ∈ [(0, 1), (1, 2), (2, 3), (3, 0), (0, 4), (1, 4), (2, 4), (3, 4)],
      distSq (vertexAt (vertices (0.8 : ℝ) r) e.1) (vertexAt (vertices (0.8 : ℝ) r) e.2)
        = 16 / 25 := by
  intro e he
  simp only [List.mem_cons, List.mem_nil_iff, or_false] at he
  rcases he with rfl | rfl | rfl | rfl | rfl | rfl | rfl | rfl <;>
    simp only [distSq, vertexAt, vertices, List.getD_cons_zero, List.getD_cons_succ,
      Nat.mul_zero, Nat.mul_one, Nat.zero_add] <;>
    norm_num <;> linear_combination (16 / 25 : ℝ) * hr

/-- C8: in exact real arithmetic, with scale = 0.8 = 4/5 and h = sqrt 0.5,
the four base edges 0-1, 1-2, 2-3, 3-0 and the four lateral edges from a
base corner to the apex 4 all have squared length 16/25, that is length 4/5,
the scale. -/
theorem equal_edges :
    (0.8 : ℝ) = 4 / 5 ∧ (0.5 : ℝ) = 1 / 2 ∧
    (∀ e ∈ [(0, 1), (1, 2), (2, 3), (3, 0), (0, 4), (1, 4), (2, 4), (3, 4)],
      distSq (vertexAt (vertices (0.8 : ℝ) (Real.sqrt 0.5)) e.1)
          (vertexAt (vertices (0.8 : ℝ) (Real.sqrt 0.5)) e.2) = 16 / 25 ∧
      Real.sqrt (distSq (vertexAt (vertices (0.8 : ℝ) (Real.sqrt 0.5)) e.1)
          (vertexAt (vertices (0.8 : ℝ) (Real.sqrt 0.5)) e.2)) = 4 / 5) := by
  have hroot : Real.sqrt (16 / 25) = 4 / 5 := by
    rw [show (16 / 25 : ℝ) = (4 / 5) * (4 / 5) by norm_num]
    exact Real.sqrt_mul_self (by norm_num)
  have key := distSq_edges (Real.sqrt 0.5) sqrt_half_mul_self
  refine ⟨by norm_num, by norm_num, fun e he => ⟨key e he, ?_⟩⟩
  rw [key e he, hroot]

/-- C10: every triangle has three distinct indices; the triangles have 9
distinct undirected edges; each of these lies on exactly two triangles and
is traversed once in each direction; vertices - edges + faces = 2. -/
theorem closed_oriented_surface :
    (∀ t ∈ triangles indices, t.1 ≠ t.2.1 ∧ t.2.1 ≠ t.2.2 ∧ t.1 ≠ t.2.2) ∧
    (triangles indices).length = 6 ∧
    (undirectedEdges (triangles indices)).length = 9 ∧
    (∀ e ∈ undirectedEdges (triangles indices),
      ((triangles indices).filter (fun t => hasEdge t e)).length = 2 ∧
      (directedEdges (triangles indices)).count e = 1 ∧
      (directedEdges (triangles indices)).count (e.2, e.1) = 1) ∧
    ((indices.dedup.length : Int) - (undirectedEdges (triangles indices)).length
      + (triangles indices).length = 2) := by
  refine ⟨by decide, by decide, by decide, by decide, by decide⟩

/-! ## Facts about traces -/

section TraceFacts

variable {F M : Type}

theorem stdout_append (a b : List (Call F M)) : stdout (a ++ b) = stdout a ++ stdout b := by
  simp [stdout]

theorem stdout_compileShader (env : Env F) (kind : ShaderKind) (shader : Obj)
    (source header : String) :
    stdout (compileShader env kind shader source header : List (Call F M)) =
      expectedReport (env.compileStatus shader) header (env.infoLog shader) := by
  cases h : env.compileStatus shader <;>
    simp [stdout, compileShader, expectedReport, Call.output, h]

theorem stdout_linkProgram (env : Env F) (program fragment : Obj) (header : String) :
    stdout (linkProgram env program fragment header : List (Call F M)) =
      expectedReport (env.linkStatus program) header (env.infoLog program) := by
  cases h : env.linkStatus program <;>
    simp [stdout, linkProgram, expectedReport, Call.output, h]

theorem stdout_shaderSetup (env : Env F) :
    stdout (shaderSetup env : List (Call F M)) =
      expectedReport (env.compileStatus Obj.vertexShader)
        "ERROR::SHADER::VERTEX::COMPILATION_FAILED\n" (env.infoLog Obj.vertexShader) ++
      expectedReport (env.compileStatus Obj.fragmentShader)
        "ERROR::SHADER::FRAGMENT::COMPILATION_FAILED\n" (env.infoLog Obj.fragmentShader) ++
      expectedReport (env.compileStatus Obj.edgeFragmentShader)
        "ERROR::SHADER::EDGE_FRAGMENT::COMPILATION_FAILED\n"
        (env.infoLog Obj.edgeFragmentShader) ++
      expectedReport (env.linkStatus Obj.shaderProgram)
        "ERROR::SHADER::PROGRAM::LINKING_FAILED\n" (env.infoLog Obj.shaderProgram) ++
      expectedReport (env.linkStatus Obj.edgeShaderProgram)
        "ERROR::SHADER::EDGE_PROGRAM::LINKING_FAILED\n"
        (env.infoLog Obj.edgeShaderProgram) := by
  unfold shaderSetup
  simp only [stdout_append, stdout_compileShader, stdout_linkProgram]
  simp [stdout, Call.output]

theorem draws_append (s : GLState M) (a b : List (Call F M)) :
    draws s (a ++ b) = draws s a ++ draws (a.foldl GLState.step s) b := by
  induction a generalizing s with
  | nil => simp [draws]
  | cons c a ih => simp [draws, ih]

theorem draws_callbacks (s : GLState M) (l : List (Int × Int)) :
    draws s (l.flatMap (fun wh => (framebuffer_size_callback wh.1 wh.2 : List (Call F M)))) = [] := by
  induction l with
  | nil => simp [draws]
  | cons wh l ih =>
    simp only [List.flatMap_cons, framebuffer_size_callback, List.cons_append, List.nil_append,
      draws, GLState.drawOf, GLState.step, Option.toList, ih]
    simpa [framebuffer_size_callback] using ih

theorem draws_eq_nil (l : List (Call F M)) (h : ∀ c ∈ l, c.isDraw = false) :
    ∀ s : GLState M, draws s l = [] := by
  induction l with
  | nil => intro s; rfl
  | cons c l ih =>
    intro s
    have hc : c.isDraw = false := h c (List.mem_cons_self _ _)
    have hd : s.drawOf c = none := by
      cases c <;> first | rfl | exact Bool.noConfusion hc
    simp [draws, hd, ih (fun x hx => h x (List.mem_cons_of_mem _ hx))]

theorem uploads_append (a c : List (Call F M)) :
    ∀ b : Bindings, uploads b (a ++ c) = uploads b a ++ uploads (a.foldl Bindings.step b) c := by
  induction a with
  | nil => intro b; simp [uploads]
  | cons x a ih => intro b; simp [uploads, ih]

theorem uploads_eq_nil (l : List (Call F M)) (h : ∀ c ∈ l, c.isUpload = false) :
    ∀ b : Bindings, uploads b l = [] := by
  induction l with
  | nil => intro b; rfl
  | cons c l ih =>
    intro b
    have hc : c.isUpload = false := h c (List.mem_cons_self _ _)
    have hu : b.uploadOf c = none := by
      cases c <;> first | rfl | exact Bool.noConfusion hc
    simp [uploads, hu, ih (fun x hx => h x (List.mem_cons_of_mem _ hx))]

theorem uploads_bufferSetup (vs : List F) (is : List Nat) (b : Bindings) :
    uploads b (bufferSetup vs is : List (Call F M)) =
      [ (some Obj.VBO, BufferContents.floats vs), (some Obj.EBO, BufferContents.uints is) ] := by
  simp [bufferSetup, uploads, Bindings.uploadOf, Bindings.step]

theorem not_lifecycle (c : Call F M) (h : c.isBufferLifecycle = false) :
    c.isUpload = false ∧ c.isAttribSetup = false ∧ c.isTerminate = false ∧
    ∀ o, c.generates o = false ∧ c.deletes o = false := by
  cases c <;> simp_all [Call.isBufferLifecycle, Call.isUpload, Call.isAttribSetup,
    Call.isTerminate, Call.generates, Call.deletes]

/-- The calls up to the end of shader setup. -/
theorem prefix_calls (env : Env F) :
    ∀ c ∈ (createWindow env ++ loadGL env ++ ([Call.glEnableDepthTest] ++ shaderSetup env) :
        List (Call F M)),
      c.isBufferLifecycle = false ∧ c.isDraw = false ∧ c.isLoopCheck = false := by
  intro c hc
  have hall : (createWindow env ++ loadGL env ++ ([Call.glEnableDepthTest] ++ shaderSetup env) :
      List (Call F M)).all
        (fun c => !c.isBufferLifecycle && !c.isDraw && !c.isLoopCheck) = true := by
    cases h1 : env.compileStatus Obj.vertexShader <;>
    cases h2 : env.compileStatus Obj.fragmentShader <;>
    cases h3 : env.compileStatus Obj.edgeFragmentShader <;>
    cases h4 : env.linkStatus Obj.shaderProgram <;>
    cases h5 : env.linkStatus Obj.edgeShaderProgram <;>
    simp [createWindow, loadGL, shaderSetup, compileShader, linkProgram, h1, h2, h3, h4, h5,
      Call.isBufferLifecycle, Call.isDraw, Call.isLoopCheck]
  have := List.all_eq_true.mp hall c hc
  simpa [and_assoc] using this

theorem bufferSetup_calls (vs : List F) (is : List Nat) :
    ∀ c ∈ (bufferSetup vs is : List (Call F M)),
      c.isDraw = false ∧ c.isLoopCheck = false ∧ c.isTerminate = false ∧
      ∀ o, c.deletes o = false := by
  intro c hc
  simp only [bufferSetup, List.mem_cons, List.mem_nil_iff, or_false] at hc
  rcases hc with rfl | rfl | rfl | rfl | rfl | rfl | rfl | rfl | rfl | rfl | rfl | rfl <;>
    exact ⟨rfl, rfl, rfl, fun _ => rfl⟩

theorem callbacks_calls (l : List (Int × Int)) :
    ∀ c ∈ l.flatMap (fun wh => (framebuffer_size_callback wh.1 wh.2 : List (Call F M))),
      c.isBufferLifecycle = false := by
  intro c hc
  simp only [List.mem_flatMap, framebuffer_size_callback, List.mem_cons, List.mem_nil_iff,
    or_false] at hc
  obtain ⟨wh, _, rfl⟩ := hc
  rfl

theorem cleanup_calls :
    ∀ c ∈ (cleanup : List (Call F M)),
      c.isDraw = false ∧ c.isLoopCheck = false ∧ c.isUpload = false ∧
      c.isAttribSetup = false ∧ ∀ o, c.generates o = false := by
  intro c hc
  simp only [cleanup, List.mem_cons, List.mem_nil_iff, or_false] at hc
  rcases hc with rfl | rfl | rfl | rfl | rfl | rfl <;>
    exact ⟨rfl, rfl, rfl, rfl, fun _ => rfl⟩

end TraceFacts

/-! ## Reports of the status checks -/

section Reports

variable {F M : Type}

/-- C6: the standard output of shader setup is, check by check in program
order (vertex compile, face-fragment compile, edge-fragment compile,
face-program link, edge-program link), nothing for a check whose status is
success and that check's header, its info log and a newline for a check
whose status is failure; so when all five succeed shader setup writes
nothing. -/
theorem shader_errors_reported (env : Env F) :
    stdout (shaderSetup env : List (Call F M)) =
      expectedReport (env.compileStatus Obj.vertexShader)
        "ERROR::SHADER::VERTEX::COMPILATION_FAILED\n" (env.infoLog Obj.vertexShader) ++
      expectedReport (env.compileStatus Obj.fragmentShader)
        "ERROR::SHADER::FRAGMENT::COMPILATION_FAILED\n" (env.infoLog Obj.fragmentShader) ++
      expectedReport (env.compileStatus Obj.edgeFragmentShader)
        "ERROR::SHADER::EDGE_FRAGMENT::COMPILATION_FAILED\n"
        (env.infoLog Obj.edgeFragmentShader) ++
      expectedReport (env.linkStatus Obj.shaderProgram)
        "ERROR::SHADER::PROGRAM::LINKING_FAILED\n" (env.infoLog Obj.shaderProgram) ++
      expectedReport (env.linkStatus Obj.edgeShaderProgram)
        "ERROR::SHADER::EDGE_PROGRAM::LINKING_FAILED\n"
        (env.infoLog Obj.edgeShaderProgram) ∧
    (env.compileStatus Obj.vertexShader = true →
      env.compileStatus Obj.fragmentShader = true →
      env.compileStatus Obj.edgeFragmentShader = true →
      env.linkStatus Obj.shaderProgram = true →
      env.linkStatus Obj.edgeShaderProgram = true →
      stdout (shaderSetup env : List (Call F M)) = []) := by
  refine ⟨stdout_shaderSetup env, ?_⟩
  intro h1 h2 h3 h4 h5
  rw [stdout_shaderSetup, h1, h2, h3, h4, h5]
  rfl

end Reports

/-! ## The render loop -/

section Loop

variable {F M : Type} [Field F]

theorem frame_flag (glm : Glm F M) (env : Env F) (i : Nat) (flag : Bool) :
    (frame glm env i flag).2 = env.pollEvents i (if env.keyEscape i then true else flag) := by
  cases hk : env.keyEscape i <;> simp [frame, processInput, hk]

theorem renderLoop_true (glm : Glm F M) (env : Env F) (fuel i : Nat) :
    renderLoop glm env (fuel + 1) i true = ([Call.glfwWindowShouldClose true], true) := by
  simp [renderLoop]

theorem renderLoop_false (glm : Glm F M) (env : Env F) (fuel i : Nat) :
    renderLoop glm env (fuel + 1) i false =
      (Call.glfwWindowShouldClose false :: (frame glm env i false).1 ++
        (renderLoop glm env fuel (i + 1) (frame glm env i false).2).1,
       (renderLoop glm env fuel (i + 1) (frame glm env i false).2).2) := by
  simp [renderLoop]

theorem renderLoop_head (glm : Glm F M) (env : Env F) (fuel i : Nat) (flag : Bool) :
    ∃ rest, (renderLoop glm env (fuel + 1) i flag).1 = Call.glfwWindowShouldClose flag :: rest := by
  cases flag with
  | true => exact ⟨[], by rw [renderLoop_true]⟩
  | false =>
    exact ⟨(frame glm env i false).1 ++
      (renderLoop glm env fuel (i + 1) (frame glm env i false).2).1, by rw [renderLoop_false]; rfl⟩

theorem shouldCloseAt_succ (glm : Glm F M) (env : Env F) (i : Nat)
    (h : shouldCloseAt env i = false) :
    (frame glm env i false).2 = shouldCloseAt env (i + 1) := by
  rw [frame_flag, shouldCloseAt, h]

/-- If every check before the `d`-th one from frame `i` finds the flag false
and that one finds it true, the loop runs exactly `d` frames and ends. -/
theorem renderLoop_frames (glm : Glm F M) (env : Env F) :
    ∀ (d i fuel : Nat), d < fuel →
      (∀ j, j < d → shouldCloseAt env (i + j) = false) →
      shouldCloseAt env (i + d) = true →
      renderLoop glm env fuel i (shouldCloseAt env i) =
        (frames glm env i d ++ [Call.glfwWindowShouldClose true], true) := by
  intro d
  induction d with
  | zero =>
    intro i fuel hf _ hd
    obtain ⟨f, rfl⟩ : ∃ f, fuel = f + 1 := ⟨fuel - 1, by omega⟩
    rw [Nat.add_zero] at hd
    rw [hd, renderLoop_true]
    simp [frames]
  | succ d ih =>
    intro i fuel hf hlt hd
    obtain ⟨f, rfl⟩ : ∃ f, fuel = f + 1 := ⟨fuel - 1, by omega⟩
    have h0 : shouldCloseAt env i = false := by simpa using hlt 0 (by omega)
    have hnext := shouldCloseAt_succ glm env i h0
    have hrec := ih (i + 1) f (by omega)
      (fun j hj => by
        have := hlt (j + 1) (by omega)
        rwa [show i + (j + 1) = i + 1 + j by omega] at this)
      (by rwa [show i + (d + 1) = i + 1 + d by omega] at hd)
    rw [h0, renderLoop_false, hnext, hrec]
    simp [frames]

/-- If some check finds the flag true, the loop ends, given fuel for that
many checks. -/
theorem renderLoop_ends (glm : Glm F M) (env : Env F) :
    ∀ (d i fuel : Nat), d < fuel → shouldCloseAt env (i + d) = true →
      (renderLoop glm env fuel i (shouldCloseAt env i)).2 = true := by
  intro d
  induction d with
  | zero =>
    intro i fuel hf hd
    obtain ⟨f, rfl⟩ : ∃ f, fuel = f + 1 := ⟨fuel - 1, by omega⟩
    rw [Nat.add_zero] at hd
    rw [hd, renderLoop_true]
  | succ d ih =>
    intro i fuel hf hd
    obtain ⟨f, rfl⟩ : ∃ f, fuel = f + 1 := ⟨fuel - 1, by omega⟩
    cases h0 : shouldCloseAt env i with
    | true => rw [renderLoop_true]
    | false =>
      rw [renderLoop_false, shouldCloseAt_succ glm env i h0]
      exact ih (i + 1) f (by omega) (by rwa [show i + (d + 1) = i + 1 + d by omega] at hd)

/-- Whatever the fuel, the calls of the loop are some number of whole frames,
followed by the final check when the loop ended. -/
theorem renderLoop_shape (glm : Glm F M) (env : Env F) :
    ∀ (fuel i : Nat) (flag : Bool), ∃ d, d ≤ fuel ∧
      (renderLoop glm env fuel i flag).1 =
        frames glm env i d ++
          (if (renderLoop glm env fuel i flag).2 then [Call.glfwWindowShouldClose true] else []) := by
  intro fuel
  induction fuel with
  | zero =>
    intro i flag
    exact ⟨0, le_refl _, by simp [renderLoop, frames]⟩
  | succ f ih =>
    intro i flag
    cases flag with
    | true => exact ⟨0, by omega, by simp [renderLoop, frames]⟩
    | false =>
      obtain ⟨d, hd, hshape⟩ := ih (i + 1) (frame glm env i false).2
      refine ⟨d + 1, by omega, ?_⟩
      rw [renderLoop_false]
      simp only [frames]
      rw [hshape]
      simp

end Loop

/-! ## Exit status of `main` -/

section Exit

variable {F M : Type} [Field F]

theorem main_no_window (glm : Glm F M) (env : Env F) (fuel : Nat)
    (hw : env.windowCreated = false) :
    main glm env fuel = ⟨createWindow env ++ windowFailure, some (-1)⟩ := by
  simp [main, hw]

theorem main_no_loader (glm : Glm F M) (env : Env F) (fuel : Nat)
    (hw : env.windowCreated = true) (hg : env.gladLoaded = false) :
    main glm env fuel = ⟨createWindow env ++ loadGL env ++ loaderFailure, some (-1)⟩ := by
  simp [main, hw, hg]

theorem main_running (glm : Glm F M) (env : Env F) (fuel : Nat)
    (hw : env.windowCreated = true) (hg : env.gladLoaded = true)
    (hl : (renderLoop glm env fuel 0 env.initialShouldClose).2 = false) :
    main glm env fuel =
      ⟨createWindow env ++ loadGL env ++ setup glm env ++
        (renderLoop glm env fuel 0 env.initialShouldClose).1, none⟩ := by
  simp [main, hw, hg, hl]

theorem main_finished (glm : Glm F M) (env : Env F) (fuel : Nat)
    (hw : env.windowCreated = true) (hg : env.gladLoaded = true)
    (hl : (renderLoop glm env fuel 0 env.initialShouldClose).2 = true) :
    main glm env fuel =
      ⟨createWindow env ++ loadGL env ++ setup glm env ++
        (renderLoop glm env fuel 0 env.initialShouldClose).1 ++ cleanup, some 0⟩ := by
  simp [main, hw, hg, hl]

theorem main_exit_ne_neg_one (glm : Glm F M) (env : Env F) (fuel : Nat)
    (hw : env.windowCreated = true) (hg : env.gladLoaded = true) :
    (main glm env fuel).exit ≠ some (-1) := by
  cases hl : (renderLoop glm env fuel 0 env.initialShouldClose).2 with
  | false => rw [main_running glm env fuel hw hg hl]; simp
  | true => rw [main_finished glm env fuel hw hg hl]; simp

end Exit

/-! ## Error handling -/

section Errors

variable {F M : Type} [Field F]

/-- C2: when window creation fails `main` prints "Failed to create GLFW
window" and returns -1; when the window exists but the loader fails it
prints "Failed to initialize GLAD" and returns -1; in both runs no shader,
program, buffer or vertex array is created and no loop check is made; and
`main` returns -1 in no other case. -/
theorem window_loader_failures (glm : Glm F M) (env : Env F) (fuel : Nat) :
    (env.windowCreated = false →
      (main glm env fuel).exit = some (-1) ∧
      stdout (main glm env fuel).trace = ["Failed to create GLFW window", "\n"] ∧
      (∀ c ∈ (main glm env fuel).trace, c.creates = false ∧ c.isLoopCheck = false)) ∧
    (env.windowCreated = true → env.gladLoaded = false →
      (main glm env fuel).exit = some (-1) ∧
      stdout (main glm env fuel).trace = ["Failed to initialize GLAD", "\n"] ∧
      (∀ c ∈ (main glm env fuel).trace, c.creates = false ∧ c.isLoopCheck = false)) ∧
    ((main glm env fuel).exit = some (-1) →
      env.windowCreated = false ∨ (env.windowCreated = true ∧ env.gladLoaded = false)) := by
  refine ⟨?_, ?_, ?_⟩
  · intro hw
    rw [main_no_window glm env fuel hw]
    refine ⟨rfl, ?_, ?_⟩
    · simp [stdout, createWindow, windowFailure, Call.output]
    · intro c hc
      simp only [createWindow, windowFailure, List.cons_append, List.nil_append,
        List.mem_cons, List.mem_nil_iff, or_false] at hc
      rcases hc with rfl | rfl | rfl | rfl | rfl | rfl | rfl | rfl <;>
        exact ⟨rfl, rfl⟩
  · intro hw hg
    rw [main_no_loader glm env fuel hw hg]
    refine ⟨rfl, ?_, ?_⟩
    · simp [stdout, createWindow, loadGL, loaderFailure, Call.output]
    · intro c hc
      simp only [createWindow, loadGL, loaderFailure, List.cons_append, List.nil_append,
        List.mem_cons, List.mem_nil_iff, or_false] at hc
      rcases hc with rfl | rfl | rfl | rfl | rfl | rfl | rfl | rfl | rfl | rfl <;>
        exact ⟨rfl, rfl⟩
  · intro h
    cases hw : env.windowCreated with
    | false => exact Or.inl rfl
    | true =>
      cases hg : env.gladLoaded with
      | false => exact Or.inr ⟨rfl, rfl⟩
      | true =>
        exact absurd h (main_exit_ne_neg_one glm env fuel hw hg)

end Errors

/-! ## Input -/

section Input

variable {F M : Type} [Field F]

/-- C5: `processInput` sets the should-close flag when Escape is pressed and
leaves it as it was otherwise; a loop check that finds the flag set runs no
frame and ends the loop; and when Escape is pressed in a frame and event
polling does not clear the flag, that frame is the last one: the next check
ends the loop and `main` goes on to teardown and returns 0. -/
theorem escape_closes_window (glm : Glm F M) (env : Env F) :
    (∀ flag, (processInput true flag : List (Call F M) × Bool) =
      ([Call.glfwGetKeyEscape true, Call.glfwSetWindowShouldClose true], true)) ∧
    (∀ flag, (processInput false flag : List (Call F M) × Bool) =
      ([Call.glfwGetKeyEscape false], flag)) ∧
    (∀ fuel i, renderLoop glm env (fuel + 1) i true = ([Call.glfwWindowShouldClose true], true)) ∧
    (∀ fuel i, env.keyEscape i = true → env.pollEvents i true = true →
      renderLoop glm env (fuel + 2) i false =
        (Call.glfwWindowShouldClose false :: (frame glm env i false).1 ++
          [Call.glfwWindowShouldClose true], true)) ∧
    (env.windowCreated = true → env.gladLoaded = true →
      ∀ n fuel, n + 1 < fuel → (∀ j, j ≤ n → shouldCloseAt env j = false) →
        env.keyEscape n = true → env.pollEvents n true = true →
        main glm env fuel =
          ⟨createWindow env ++ loadGL env ++ setup glm env ++
            (frames glm env 0 (n + 1) ++ [Call.glfwWindowShouldClose true]) ++ cleanup,
           some 0⟩) := by
  refine ⟨fun _ => rfl, fun _ => rfl, renderLoop_true glm env, ?_, ?_⟩
  · intro fuel i hk hp
    have hflag : (frame glm env i false).2 = true := by
      rw [frame_flag, hk]
      simpa using hp
    rw [renderLoop_false, hflag, renderLoop_true]
  · intro hw hg n fuel hn hlt hk hp
    have hclose : shouldCloseAt env (0 + (n + 1)) = true := by
      rw [Nat.zero_add, shouldCloseAt, hk]
      simpa using hp
    have hloop := renderLoop_frames glm env (n + 1) 0 fuel hn
      (fun j hj => by rw [Nat.zero_add]; exact hlt j (by omega)) hclose
    have h0 : shouldCloseAt env 0 = env.initialShouldClose := rfl
    rw [h0] at hloop
    have hfin : (renderLoop glm env fuel 0 env.initialShouldClose).2 = true := by rw [hloop]
    rw [main_finished glm env fuel hw hg hfin, hloop]

end Input

/-! ## Drawing -/

section Drawing

variable {F M : Type} [Field F]

theorem draws_frame (glm : Glm F M) (env : Env F) (i : Nat) (flag : Bool) (s : GLState M) :
    draws s (frame glm env i flag).1 = expectedDraws glm env i := by
  cases hk : env.keyEscape i <;>
    simp [frame, processInput, useProgram, draws, GLState.drawOf, GLState.step, expectedDraws,
      draws_callbacks, hk]

theorem draws_frames (glm : Glm F M) (env : Env F) :
    ∀ (d i : Nat) (s : GLState M),
      draws s (frames glm env i d) = (List.range d).flatMap (fun k => expectedDraws glm env (i + k)) := by
  intro d
  induction d with
  | zero => intro i s; simp [frames, draws]
  | succ d ih =>
    intro i s
    have hstep : draws s (frames glm env i (d + 1)) =
        expectedDraws glm env i ++
          (List.range d).flatMap (fun k => expectedDraws glm env (i + 1 + k)) := by
      have hcons : draws s (frames glm env i (d + 1)) =
          draws s ((frame glm env i false).1 ++ frames glm env (i + 1) d) := rfl
      rw [hcons, draws_append, draws_frame, ih]
    rw [hstep, List.range_succ_eq_map, List.flatMap_cons, List.flatMap_map]
    simp [Function.comp_def, Nat.add_assoc, Nat.add_comm 1]

theorem draws_renderLoop (glm : Glm F M) (env : Env F) (fuel i : Nat) (flag : Bool)
    (s : GLState M) :
    ∃ d, d ≤ fuel ∧
      (renderLoop glm env fuel i flag).1 =
        frames glm env i d ++
          (if (renderLoop glm env fuel i flag).2 then [Call.glfwWindowShouldClose true] else []) ∧
      draws s (renderLoop glm env fuel i flag).1 =
        (List.range d).flatMap (fun k => expectedDraws glm env (i + k)) := by
  obtain ⟨d, hd, hshape⟩ := renderLoop_shape glm env fuel i flag
  refine ⟨d, hd, hshape, ?_⟩
  rw [hshape, draws_append, draws_frames]
  cases (renderLoop glm env fuel i flag).2 <;> simp [draws, GLState.drawOf]

theorem setup_regroup (glm : Glm F M) (env : Env F) :
    createWindow env ++ loadGL env ++ setup glm env =
      (createWindow env ++ loadGL env ++ ([Call.glEnableDepthTest] ++ shaderSetup env)) ++
        bufferSetup (vertices 0.8 (glm.sqrt 0.5)) indices := by
  simp [setup, List.append_assoc]

theorem before_loop_calls (glm : Glm F M) (env : Env F) :
    ∀ c ∈ createWindow env ++ loadGL env ++ setup glm env,
      c.isLoopCheck = false ∧ c.isDraw = false ∧ c.isTerminate = false ∧
      ∀ o, c.deletes o = false := by
  intro c hc
  rw [setup_regroup, List.mem_append] at hc
  rcases hc with h | h
  · obtain ⟨h1, h2, h3⟩ := prefix_calls env c h
    obtain ⟨_, _, h4, h5⟩ := not_lifecycle c h1
    exact ⟨h3, h2, h4, fun o => (h5 o).2⟩
  · obtain ⟨h1, h2, h3, h4⟩ := bufferSetup_calls _ _ c h
    exact ⟨h2, h1, h3, h4⟩

theorem draws_main (glm : Glm F M) (env : Env F) (fuel : Nat) (s : GLState M) :
    ∃ d, d ≤ fuel ∧
      draws s (main glm env fuel).trace =
        (List.range d).flatMap (fun k => expectedDraws glm env k) := by
  have hfail : ∀ l : List (Call F M), (∀ c ∈ l, c.isDraw = false) →
      ∃ d, d ≤ fuel ∧ draws s l = (List.range d).flatMap (fun k => expectedDraws glm env k) :=
    fun l hl => ⟨0, Nat.zero_le _, by rw [draws_eq_nil l hl]; rfl⟩
  cases hw : env.windowCreated with
  | false =>
    rw [main_no_window glm env fuel hw]
    apply hfail
    intro c hc
    simp only [createWindow, windowFailure, List.cons_append, List.nil_append,
      List.mem_cons, List.mem_nil_iff, or_false] at hc
    rcases hc with rfl | rfl | rfl | rfl | rfl | rfl | rfl | rfl <;> rfl
  | true =>
    cases hg : env.gladLoaded with
    | false =>
      rw [main_no_loader glm env fuel hw hg]
      apply hfail
      intro c hc
      simp only [createWindow, loadGL, loaderFailure, List.cons_append, List.nil_append,
        List.mem_cons, List.mem_nil_iff, or_false] at hc
      rcases hc with rfl | rfl | rfl | rfl | rfl | rfl | rfl | rfl | rfl | rfl <;> rfl
    | true =>
      have hpre : ∀ s : GLState M, draws s (createWindow env ++ loadGL env ++ setup glm env) = [] :=
        draws_eq_nil _ (fun c hc => (before_loop_calls glm env c hc).2.1)
      obtain ⟨d, hd, _, hdraws⟩ := draws_renderLoop glm env fuel 0 env.initialShouldClose
        ((createWindow env ++ loadGL env ++ setup glm env).foldl GLState.step s)
      refine ⟨d, hd, ?_⟩
      simp only [Nat.zero_add] at hdraws
      cases hl : (renderLoop glm env fuel 0 env.initialShouldClose).2 with
      | false =>
        rw [main_running glm env fuel hw hg hl]
        simp only [draws_append, hpre, hdraws, List.nil_append]
      | true =>
        rw [main_finished glm env fuel hw hg hl]
        simp only [draws_append, hpre, hdraws, List.nil_append]
        rw [draws_eq_nil cleanup (fun c hc => (cleanup_calls c hc).1), List.append_nil]

end Drawing

/-! ## Facts about status checks and vertex fetch -/

section FetchFacts

variable {F M : Type}

theorem statusChecks_append (a b : List (Call F M)) :
    statusChecks (a ++ b) = statusChecks a ++ statusChecks b := by
  simp [statusChecks]

theorem statusChecks_compileShader (env : Env F) (kind : ShaderKind) (shader : Obj)
    (source header : String) :
    statusChecks (compileShader env kind shader source header : List (Call F M)) =
      [(shader, env.compileStatus shader)] := by
  cases h : env.compileStatus shader <;>
    simp [statusChecks, compileShader, Call.statusCheck, h]

theorem statusChecks_linkProgram (env : Env F) (program fragment : Obj) (header : String) :
    statusChecks (linkProgram env program fragment header : List (Call F M)) =
      [(program, env.linkStatus program)] := by
  cases h : env.linkStatus program <;>
    simp [statusChecks, linkProgram, Call.statusCheck, h]

theorem statusChecks_prefix (env : Env F) :
    statusChecks (createWindow env ++ loadGL env ++ ([Call.glEnableDepthTest] ++ shaderSetup env) :
      List (Call F M)) =
      [ (Obj.vertexShader, env.compileStatus Obj.vertexShader),
        (Obj.fragmentShader, env.compileStatus Obj.fragmentShader),
        (Obj.edgeFragmentShader, env.compileStatus Obj.edgeFragmentShader),
        (Obj.shaderProgram, env.linkStatus Obj.shaderProgram),
        (Obj.edgeShaderProgram, env.linkStatus Obj.edgeShaderProgram) ] := by
  unfold shaderSetup
  simp only [statusChecks_append, statusChecks_compileShader, statusChecks_linkProgram]
  simp [statusChecks, createWindow, loadGL, Call.statusCheck]

theorem statusChecks_bufferSetup (vs : List F) (is : List Nat) :
    statusChecks (bufferSetup vs is : List (Call F M)) = [] := by
  simp [statusChecks, bufferSetup, Call.statusCheck]

theorem fetches_append (a b : List (Call F M)) :
    ∀ m : GLMem F, fetches m (a ++ b) = fetches m a ++ fetches (a.foldl GLMem.step m) b := by
  induction a with
  | nil => intro m; simp [fetches]
  | cons c a ih => intro m; simp [fetches, ih]

theorem fetches_eq_nil (l : List (Call F M)) (h : ∀ c ∈ l, c.isDraw = false) :
    ∀ m : GLMem F, fetches m l = [] := by
  induction l with
  | nil => intro m; rfl
  | cons c l ih =>
    intro m
    have hc : c.isDraw = false := h c (List.mem_cons_self _ _)
    have hd : m.fetchDraw c = none := by
      cases c <;> first | rfl | exact Bool.noConfusion hc
    simp [fetches, hd, ih (fun x hx => h x (List.mem_cons_of_mem _ hx))]

theorem fetches_length (l : List (Call F M)) :
    ∀ m : GLMem F, (fetches m l).length = l.countP Call.isDraw := by
  induction l with
  | nil => intro m; rfl
  | cons c l ih =>
    intro m
    rw [fetches, List.length_append, ih, List.countP_cons]
    cases c <;>
      first
        | (simp [GLMem.fetchDraw, Call.isDraw]; done)
        | (simp [GLMem.fetchDraw, Call.isDraw]; omega)

theorem step_prefix (env : Env F) (m : GLMem F) :
    (createWindow env ++ loadGL env ++ ([Call.glEnableDepthTest] ++ shaderSetup env) :
      List (Call F M)).foldl GLMem.step m = m := by
  cases h1 : env.compileStatus Obj.vertexShader <;>
  cases h2 : env.compileStatus Obj.fragmentShader <;>
  cases h3 : env.compileStatus Obj.edgeFragmentShader <;>
  cases h4 : env.linkStatus Obj.shaderProgram <;>
  cases h5 : env.linkStatus Obj.edgeShaderProgram <;>
  simp [createWindow, loadGL, shaderSetup, compileShader, linkProgram, h1, h2, h3, h4, h5,
    GLMem.step]

theorem loaded_bufferSetup (vs : List F) (is : List Nat) (m : GLMem F) :
    MeshLoaded vs is ((bufferSetup vs is : List (Call F M)).foldl GLMem.step m) := by
  simp [bufferSetup, GLMem.step, MeshLoaded]

theorem step_callbacks (l : List (Int × Int)) (m : GLMem F) :
    (l.flatMap (fun wh => (framebuffer_size_callback wh.1 wh.2 : List (Call F M)))).foldl
      GLMem.step m = m := by
  induction l with
  | nil => rfl
  | cons wh l ih =>
    rw [List.flatMap_cons, List.foldl_append]
    exact ih

theorem fetches_callbacks (l : List (Int × Int)) (m : GLMem F) :
    fetches m (l.flatMap (fun wh => (framebuffer_size_callback wh.1 wh.2 : List (Call F M))))
      = [] :=
  fetches_eq_nil _
    (fun c hc => by
      simp only [List.mem_flatMap, framebuffer_size_callback, List.mem_cons, List.mem_nil_iff,
        or_false] at hc
      obtain ⟨wh, _, rfl⟩ := hc
      rfl) m

theorem meshLoaded_bind (vs : List F) (is : List Nat) (m : GLMem F) (a : Option Obj)
    (hm : MeshLoaded vs is m) : MeshLoaded vs is { m with vertexArray := a } := hm

end FetchFacts

/-! ## Vertex fetch -/

section Fetch

variable {F M : Type} [Field F]

/-- With the mesh loaded and `VAO` bound, a draw of 18 indices from offset 0
reads exactly the mesh. -/
theorem fetchDraw_loaded (scale h : F) (m : GLMem F) (mode : Primitive)
    (hv : m.vertexArray = some Obj.VAO) (hm : MeshLoaded (vertices scale h) indices m) :
    m.fetchDraw (Call.glDrawElements mode 18 0 : Call F M) =
      some (some (expectedFetch (vertices scale h) indices)) := by
  obtain ⟨he, hes, ha, hen, hvs⟩ := hm
  have hidx : m.fetchIndices 18 0 = some indices := by
    simp only [GLMem.fetchIndices, hv, he, hes]
    rfl
  have hvert : m.fetchVertex 0 = fun x =>
      readAll (fun j => (⟨sizeofScalar * (vertices scale h).length,
        BufferContents.floats (vertices scale h)⟩ : BufferStore F).readFloat
          (0 + 3 * sizeofScalar * x + sizeofScalar * j)) (List.range 3) := by
    funext x
    simp only [GLMem.fetchVertex, hv, ha, hen, hvs, if_true]
  simp only [GLMem.fetchDraw, hidx, hvert]
  rfl

theorem step_frame (glm : Glm F M) (env : Env F) (i : Nat) (flag : Bool) (m : GLMem F) :
    (frame glm env i flag).1.foldl GLMem.step m = { m with vertexArray := some Obj.VAO } := by
  have hcb := step_callbacks (F := F) (M := M) (env.resizes i)
  cases hk : env.keyEscape i <;>
    simp [frame, processInput, useProgram, hk, GLMem.step, List.foldl_append, hcb]

theorem fetches_frame (glm : Glm F M) (env : Env F) (i : Nat) (flag : Bool) (scale h : F)
    (m : GLMem F) (hm : MeshLoaded (vertices scale h) indices m) :
    fetches m (frame glm env i flag).1 =
      [ some (expectedFetch (vertices scale h) indices),
        some (expectedFetch (vertices scale h) indices) ] := by
  have hcb := fetches_callbacks (F := F) (M := M) (env.resizes i)
  have hdraw := fetchDraw_loaded (M := M) scale h { m with vertexArray := some Obj.VAO }
    Primitive.GL_TRIANGLES rfl (meshLoaded_bind _ _ m _ hm)
  cases hk : env.keyEscape i <;>
    simp [frame, processInput, useProgram, hk, fetches, GLMem.step, hcb, hdraw] <;>
    simp [GLMem.fetchDraw]

theorem fetches_frames (glm : Glm F M) (env : Env F) (scale h : F) :
    ∀ (d i : Nat) (m : GLMem F), MeshLoaded (vertices scale h) indices m →
      ∀ r ∈ fetches m (frames glm env i d), r = some (expectedFetch (vertices scale h) indices) := by
  intro d
  induction d with
  | zero => intro i m _ r hr; simp [frames, fetches] at hr
  | succ d ih =>
    intro i m hm r hr
    have hcons : fetches m (frames glm env i (d + 1)) =
        fetches m ((frame glm env i false).1 ++ frames glm env (i + 1) d) := rfl
    rw [hcons, fetches_append, fetches_frame glm env i false scale h m hm, step_frame,
      List.mem_append] at hr
    rcases hr with hr | hr
    · simp only [List.mem_cons, List.mem_nil_iff, or_false, or_self] at hr
      exact hr
    · exact ih (i + 1) _ (meshLoaded_bind _ _ m _ hm) r hr

theorem loaded_before_loop (glm : Glm F M) (env : Env F) (m : GLMem F) :
    MeshLoaded (vertices 0.8 (glm.sqrt 0.5)) indices
      ((createWindow env ++ loadGL env ++ setup glm env).foldl GLMem.step m) := by
  rw [setup_regroup, List.foldl_append, step_prefix]
  exact loaded_bufferSetup _ _ m

theorem fetches_main (glm : Glm F M) (env : Env F) (fuel : Nat) :
    ∀ r ∈ fetches GLMem.init (main glm env fuel).trace,
      r = some (expectedFetch (vertices 0.8 (glm.sqrt 0.5)) indices) := by
  intro r hr
  have hnil : ∀ l : List (Call F M), (∀ c ∈ l, c.isDraw = false) →
      r ∈ fetches GLMem.init l → False := by
    intro l hl h
    rw [fetches_eq_nil l hl] at h
    simp at h
  cases hw : env.windowCreated with
  | false =>
    rw [main_no_window glm env fuel hw] at hr
    refine (hnil _ ?_ hr).elim
    intro c hc
    simp only [createWindow, windowFailure, List.cons_append, List.nil_append,
      List.mem_cons, List.mem_nil_iff, or_false] at hc
    rcases hc with rfl | rfl | rfl | rfl | rfl | rfl | rfl | rfl <;> rfl
  | true =>
    cases hg : env.gladLoaded with
    | false =>
      rw [main_no_loader glm env fuel hw hg] at hr
      refine (hnil _ ?_ hr).elim
      intro c hc
      simp only [createWindow, loadGL, loaderFailure, List.cons_append, List.nil_append,
        List.mem_cons, List.mem_nil_iff, or_false] at hc
      rcases hc with rfl | rfl | rfl | rfl | rfl | rfl | rfl | rfl | rfl | rfl <;> rfl
    | true =>
      have hpre : fetches GLMem.init (createWindow env ++ loadGL env ++ setup glm env) = [] :=
        fetches_eq_nil _ (fun c hc => (before_loop_calls glm env c hc).2.1) _
      have hloaded := loaded_before_loop glm env GLMem.init
      obtain ⟨d, _, hshape⟩ := renderLoop_shape glm env fuel 0 env.initialShouldClose
      have hloop : ∀ x ∈ fetches
          ((createWindow env ++ loadGL env ++ setup glm env).foldl GLMem.step GLMem.init)
          (renderLoop glm env fuel 0 env.initialShouldClose).1,
          x = some (expectedFetch (vertices 0.8 (glm.sqrt 0.5)) indices) := by
        intro x hx
        rw [hshape, fetches_append, List.mem_append] at hx
        rcases hx with hx | hx
        · exact fetches_frames glm env _ _ d 0 _ hloaded x hx
        · rw [fetches_eq_nil _ (fun c hc => by
            split at hc
            · simp only [List.mem_cons, List.mem_nil_iff, or_false] at hc
              rw [hc]; rfl
            · simp at hc)] at hx
          simp at hx
      cases hl : (renderLoop glm env fuel 0 env.initialShouldClose).2 with
      | false =>
        rw [main_running glm env fuel hw hg hl] at hr
        simp only [fetches_append, hpre, List.nil_append] at hr
        exact hloop r hr
      | true =>
        rw [main_finished glm env fuel hw hg hl] at hr
        simp only [fetches_append, hpre, List.nil_append, List.mem_append] at hr
        rcases hr with hr | hr
        · exact hloop r hr
        · rw [fetches_eq_nil cleanup (fun c hc => (cleanup_calls c hc).1)] at hr
          simp at hr

end Fetch

/-! ## Shader failures -/

section ShaderFailures

variable {F M : Type} [Field F]

/-- C1: with the window created and the loader succeeded, whatever the five
compile and link statuses are, `main` never returns -1.  Its run starts with
a part that reads all five statuses, in program order and with whatever
values the driver gave, without uploading anything; goes on with a part that
uploads `vertices` into the vertex buffer and `indices` into the index
buffer, leaving the mesh in GL memory; and then reaches the first loop
check.  When some loop check finds the should-close flag set, `main`
returns 0 (given fuel for that many checks). -/
theorem shader_failures_not_fatal (glm : Glm F M) (env : Env F)
    (hw : env.windowCreated = true) (hg : env.gladLoaded = true) :
    (∀ fuel, (main glm env fuel).exit ≠ some (-1)) ∧
    (∀ fuel, ∃ checks buffers rest : List (Call F M),
      (main glm env (fuel + 1)).trace =
        checks ++ buffers ++ Call.glfwWindowShouldClose env.initialShouldClose :: rest ∧
      statusChecks checks =
        [ (Obj.vertexShader, env.compileStatus Obj.vertexShader),
          (Obj.fragmentShader, env.compileStatus Obj.fragmentShader),
          (Obj.edgeFragmentShader, env.compileStatus Obj.edgeFragmentShader),
          (Obj.shaderProgram, env.linkStatus Obj.shaderProgram),
          (Obj.edgeShaderProgram, env.linkStatus Obj.edgeShaderProgram) ] ∧
      (∀ c ∈ checks, c.isUpload = false ∧ c.isLoopCheck = false) ∧
      statusChecks buffers = [] ∧
      (∀ c ∈ buffers, c.isLoopCheck = false) ∧
      uploads ⟨none, none, none⟩ (checks ++ buffers) =
        [ (some Obj.VBO, BufferContents.floats (vertices 0.8 (glm.sqrt 0.5))),
          (some Obj.EBO, BufferContents.uints indices) ] ∧
      MeshLoaded (vertices 0.8 (glm.sqrt 0.5)) indices
        ((checks ++ buffers).foldl GLMem.step GLMem.init)) ∧
    (∀ n fuel, n < fuel → shouldCloseAt env n = true → (main glm env fuel).exit = some 0) := by
  refine ⟨fun fuel => main_exit_ne_neg_one glm env fuel hw hg, ?_, ?_⟩
  · intro fuel
    obtain ⟨rest, hrest⟩ := renderLoop_head glm env fuel 0 env.initialShouldClose
    have hA := prefix_calls (M := M) env
    have hB := bufferSetup_calls (M := M) (vertices 0.8 (glm.sqrt 0.5)) indices
    have hloaded := loaded_before_loop glm env GLMem.init
    rw [setup_regroup] at hloaded
    have hup : uploads ⟨none, none, none⟩
        ((createWindow env ++ loadGL env ++ ([Call.glEnableDepthTest] ++ shaderSetup env)) ++
          bufferSetup (vertices 0.8 (glm.sqrt 0.5)) indices : List (Call F M)) =
        [ (some Obj.VBO, BufferContents.floats (vertices 0.8 (glm.sqrt 0.5))),
          (some Obj.EBO, BufferContents.uints indices) ] := by
      rw [uploads_append, uploads_eq_nil _ (fun c hc => (not_lifecycle c (hA c hc).1).1),
        uploads_bufferSetup]
      rfl
    have htrace : ∃ rest2, (main glm env (fuel + 1)).trace =
        (createWindow env ++ loadGL env ++ ([Call.glEnableDepthTest] ++ shaderSetup env)) ++
          bufferSetup (vertices 0.8 (glm.sqrt 0.5)) indices ++
          Call.glfwWindowShouldClose env.initialShouldClose :: rest2 := by
      cases hl : (renderLoop glm env (fuel + 1) 0 env.initialShouldClose).2 with
      | false =>
        refine ⟨rest, ?_⟩
        rw [main_running glm env (fuel + 1) hw hg hl, hrest, setup_regroup]
      | true =>
        refine ⟨rest ++ cleanup, ?_⟩
        rw [main_finished glm env (fuel + 1) hw hg hl, hrest, setup_regroup]
        simp
    obtain ⟨rest2, hrest2⟩ := htrace
    exact ⟨_, _, rest2, hrest2, statusChecks_prefix env,
      fun c hc => ⟨(not_lifecycle c (hA c hc).1).1, (hA c hc).2.2⟩,
      statusChecks_bufferSetup _ _, fun c hc => (hB c hc).2.1, hup, hloaded⟩
  · intro n fuel hn hclose
    have hends := renderLoop_ends glm env n 0 fuel hn (by rwa [Nat.zero_add])
    rw [main_finished glm env fuel hw hg hends]

end ShaderFailures

/-! ## Object lifetimes -/

section Lifetimes

variable {F M : Type} [Field F]

/-- C9: every entry of `indices` is below 5, the number of vertices in
`vertices` and the number of vertices uploaded (60 bytes at 12 bytes per
vertex); before the loop the vertex buffer holds all of `vertices`, the
index buffer all of `indices`, and attribute 0 of the vertex array is
enabled and laid out on the vertex buffer; every draw of a run of `main` has
offset 0 and count 18, the length of `indices`; and replaying the run on the
GL fetch state, every draw call reads, inside the index buffer and the
vertex buffer as uploaded, exactly the 18 indices and the vertex each one
names. -/
theorem drawn_indices_in_range (glm : Glm F M) (env : Env F) :
    (∀ x ∈ indices, x < 5) ∧
    (vertices (0.8 : F) (glm.sqrt 0.5)).length = 3 * 5 ∧
    indices.length = 18 ∧
    sizeofScalar * (vertices (0.8 : F) (glm.sqrt 0.5)).length / (3 * sizeofScalar) = 5 ∧
    uploads ⟨none, none, none⟩
        (bufferSetup (vertices (0.8 : F) (glm.sqrt 0.5)) indices : List (Call F M)) =
      [ (some Obj.VBO, BufferContents.floats (vertices 0.8 (glm.sqrt 0.5))),
        (some Obj.EBO, BufferContents.uints indices) ] ∧
    MeshLoaded (vertices 0.8 (glm.sqrt 0.5)) indices
      ((createWindow env ++ loadGL env ++ setup glm env).foldl GLMem.step GLMem.init) ∧
    (∀ (fuel : Nat) (s : GLState M), ∀ dr ∈ draws s (main glm env fuel).trace,
      dr.offset = 0 ∧ dr.count = indices.length ∧
      ∀ k, k < dr.count → ∃ x, indices[dr.offset + k]? = some x ∧
        3 * x + 2 < (vertices (0.8 : F) (glm.sqrt 0.5)).length) ∧
    (∀ fuel : Nat,
      (fetches GLMem.init (main glm env fuel).trace).length =
        (main glm env fuel).trace.countP Call.isDraw ∧
      ∀ r ∈ fetches GLMem.init (main glm env fuel).trace,
        r = some (expectedFetch (vertices 0.8 (glm.sqrt 0.5)) indices)) := by
  refine ⟨by decide, rfl, rfl, by simp [vertices, sizeofScalar], uploads_bufferSetup _ _ _,
    loaded_before_loop glm env GLMem.init, ?_,
    fun fuel => ⟨fetches_length _ _, fetches_main glm env fuel⟩⟩
  intro fuel s dr hdr
  obtain ⟨d, _, hd⟩ := draws_main glm env fuel s
  rw [hd] at hdr
  simp only [List.mem_flatMap, expectedDraws, List.mem_cons, List.mem_nil_iff, or_false] at hdr
  obtain ⟨j, _, hj⟩ := hdr
  have hread : ∀ k, k < 18 → ∃ x, indices[0 + k]? = some x ∧
      3 * x + 2 < (vertices (0.8 : F) (glm.sqrt 0.5)).length := by
    intro k hk
    have hlen : (vertices (0.8 : F) (glm.sqrt 0.5)).length = 15 := rfl
    rw [hlen]
    interval_cases k <;> exact ⟨_, rfl, by decide⟩
  rcases hj with rfl | rfl <;> exact ⟨rfl, rfl, hread⟩

end Lifetimes

/-! ## Concrete runs -/

theorem mesh_shape_witness :
    CharZero ℚ ∧
    (vertices (0.8 : ℚ) (7 / 10)).length = 15 ∧
    (vertexAt (vertices (0.8 : ℚ) (7 / 10)) 4).x = 0 ∧
    (∀ t ∈ (triangles indices).take 4,
      t.2.2 = 4 ∧ t.1 < 4 ∧ t.2.1 < 4 ∧ baseAdjacent (vertices (0.8 : ℚ) (7 / 10)) t.1 t.2.1) :=
  ⟨inferInstance, (mesh_shape (7 / 10 : ℚ)).1, (mesh_shape (7 / 10 : ℚ)).2.2.2.1,
    (mesh_shape (7 / 10 : ℚ)).2.2.2.2.2.2.2.1⟩

theorem shader_failures_not_fatal_witness :
    brokenShaderEnv.windowCreated = true ∧ brokenShaderEnv.gladLoaded = true ∧
    brokenShaderEnv.compileStatus Obj.fragmentShader = false ∧
    brokenShaderEnv.linkStatus Obj.shaderProgram = false ∧
    (main sampleGlm brokenShaderEnv 3).exit = some 0 ∧
    statusChecks (main sampleGlm brokenShaderEnv 3).trace =
      [ (Obj.vertexShader, true), (Obj.fragmentShader, false), (Obj.edgeFragmentShader, true),
        (Obj.shaderProgram, false), (Obj.edgeShaderProgram, true) ] :=
  ⟨rfl, rfl, rfl, rfl,
    (shader_failures_not_fatal sampleGlm brokenShaderEnv rfl rfl).2.2 2 3 (by decide) rfl,
    rfl⟩

theorem drawn_indices_in_range_witness :
    (fetches GLMem.init (main sampleGlm sampleEnv 3).trace).length = 4 :=
  ((drawn_indices_in_range sampleGlm sampleEnv).2.2.2.2.2.2.2 3).1.trans rfl

theorem window_loader_failures_witness :
    noWindowEnv.windowCreated = false ∧
    (main sampleGlm noWindowEnv 3).exit = some (-1) ∧
    noLoaderEnv.windowCreated = true ∧ noLoaderEnv.gladLoaded = false ∧
    stdout (main sampleGlm noLoaderEnv 3).trace = ["Failed to initialize GLAD", "\n"] :=
  ⟨rfl, ((window_loader_failures sampleGlm noWindowEnv 3).1 rfl).1, rfl, rfl,
    ((window_loader_failures sampleGlm noLoaderEnv 3).2.1 rfl rfl).2.1⟩

theorem shader_errors_reported_witness :
    stdout (shaderSetup sampleEnv : List (Call ℚ Unit)) = [] ∧
    stdout (shaderSetup brokenShaderEnv : List (Call ℚ Unit)) =
      [ "ERROR::SHADER::FRAGMENT::COMPILATION_FAILED\n", "0:5: syntax", "\n",
        "ERROR::SHADER::PROGRAM::LINKING_FAILED\n", "link: missing stage", "\n" ] :=
  ⟨(shader_errors_reported sampleEnv).2 rfl rfl rfl rfl rfl,
    (shader_errors_reported brokenShaderEnv).1.trans rfl⟩

theorem escape_closes_window_witness :
    sampleEnv.keyEscape 1 = true ∧ sampleEnv.pollEvents 1 true = true ∧
    (main sampleGlm sampleEnv 3).exit = some 0 :=
  ⟨rfl, rfl,
    congrArg Run.exit
      ((escape_closes_window sampleGlm sampleEnv).2.2.2.2 rfl rfl 1 3 (by decide)
        (by intro j hj; interval_cases j <;> rfl) rfl rfl)⟩

end HelloPiramid
